import Mathlib

/-!
Verification of the Odoo bulk-unreserve script
(`src/scripts/odoo-bulk-unreserve.py`).

The script is a linear procedure over an external ERP state:
1. select "stuck" stock moves (status filter, date filter, sale-order link);
2. print a BEFORE snapshot for the first 20 affected products;
3. if the `DO_UNRESERVE` flag is set, unreserve the derived pickings in
   batches of 100 and commit once;
4. print an AFTER snapshot with signed deltas for the recorded products.

We embed the ERP records (moves, quants, products) as plain data, the ORM
calls (`search`, `mapped`, `filtered`, `browse`) as list operations with the
documented recordset semantics (ordered, duplicates removed keeping the
first occurrence), and the run of the script as a function producing the
report rows, the sequence of mutating events (batch unreserve calls and the
commit), and the final ERP state.  The effect of `do_unreserve` on the ERP
state is an opaque parameter, since the ERP is an external collaborator.
-/

namespace OdooBulkUnreserve

/-- Status of a stock move (the `state` field of `stock.move`). -/
inductive MoveState
  | draft
  | waiting
  | confirmed
  | partially_available
  | assigned
  | done
  | cancel
  deriving DecidableEq, Repr

/-- Usage class of a stock location (the `usage` field of `stock.location`). -/
inductive LocationUsage
  | supplier
  | view
  | internal
  | customer
  | inventory
  | production
  | transit
  deriving DecidableEq, Repr

/-- A `stock.move` record, with the fields the script reads.  Dates are
modelled as a linearly ordered type (`Nat`), matching the strict `<`
comparison against the cutoff date. -/
structure Move where
  id : Nat
  state : MoveState
  date : Nat
  sale_line_id : Option Nat
  product_id : Nat
  picking_id : Option Nat
  deriving DecidableEq, Repr

/-- A `stock.quant` record: location-scoped stock for a product. -/
structure Quant where
  product_id : Nat
  location_usage : LocationUsage
  quantity : Int
  reserved_quantity : Int
  deriving DecidableEq, Repr

/-- A `product.product` record; `default_code` is the SKU. -/
structure Product where
  id : Nat
  default_code : Option String
  deriving DecidableEq, Repr

/-- The ERP state visible to the script. -/
structure ErpState where
  moves : List Move
  quants : List Quant
  products : List Product
  deriving DecidableEq, Repr

/-- The status filter of the selector:
`('state', 'in', ['assigned', 'confirmed', 'waiting', 'partially_available'])`. -/
def allowedStates : List MoveState :=
  [.assigned, .confirmed, .waiting, .partially_available]

/-- The cutoff date literal `cutoff_date = '2024-01-01'`, as a point of the
ordered date domain. -/
def cutoff_date : Nat := 20240101

/-- The selector:
`stuck_moves = env['stock.move'].search([('state', 'in', [...]),
('date', '<', cutoff_date), ('sale_line_id', '!=', False)])`. -/
def stuck_moves (erp : ErpState) (cutoff : Nat) : List Move :=
  erp.moves.filter fun m =>
    allowedStates.contains m.state && decide (m.date < cutoff) && m.sale_line_id.isSome

/-- Recordset union semantics of `mapped` on a many2one field: keep the
first occurrence of each id, preserving order (helper with a seen set). -/
def dedupFirstAux (seen : List Nat) : List Nat → List Nat
  | [] => []
  | x :: xs =>
    if x ∈ seen then dedupFirstAux seen xs
    else x :: dedupFirstAux (x :: seen) xs

/-- Duplicates removed keeping the first occurrence, order preserved. -/
def dedupFirst (l : List Nat) : List Nat := dedupFirstAux [] l

/-- `product_ids = stuck_moves.mapped('product_id').ids`: the product of
every selected move (`product_id` is a required field), deduplicated in
order of first appearance. -/
def product_ids (sm : List Move) : List Nat :=
  dedupFirst (sm.map Move.product_id)

/-- `env['product.product'].browse(id)`: `browse` returns a record for the
given id; the stored record if present, otherwise a shell with no fields. -/
def browseProduct (erp : ErpState) (i : Nat) : Product :=
  match erp.products.find? fun p => p.id == i with
  | some p => p
  | none => { id := i, default_code := none }

/-- The quant query of both snapshots:
`env['stock.quant'].search([('product_id', '=', pid),
('location_id.usage', '=', 'internal')])`. -/
def prodQuants (erp : ErpState) (pid : Nat) : List Quant :=
  erp.quants.filter fun q =>
    q.product_id == pid && q.location_usage == LocationUsage.internal

/-- `on_hand = sum(quants.mapped('quantity'))`. -/
def quantsOnHand (qs : List Quant) : Int := (qs.map Quant.quantity).sum

/-- `reserved = sum(quants.mapped('reserved_quantity'))`. -/
def quantsReserved (qs : List Quant) : Int := (qs.map Quant.reserved_quantity).sum

/-- One entry of `before_state`: the recorded
`{sku, on_hand, reserved, available, stuck_moves}` dictionary. -/
structure ProdRecord where
  sku : Option String
  on_hand : Int
  reserved : Int
  available : Int
  stuck_moves : Nat
  deriving DecidableEq, Repr

/-- Body of the BEFORE loop for one product: quant aggregation plus
`prod_stuck = len(stuck_moves.filtered(lambda m: m.product_id.id == prod.id))`. -/
def snapshotFor (erp : ErpState) (sm : List Move) (prod : Product) : ProdRecord :=
  let quants := prodQuants erp prod.id
  { sku := prod.default_code
    on_hand := quantsOnHand quants
    reserved := quantsReserved quants
    available := quantsOnHand quants - quantsReserved quants
    stuck_moves := (sm.filter fun m => m.product_id == prod.id).length }

/-- The `before_state` dictionary: keyed by product id in insertion order
(`for prod in products[:20]`), one entry per product.  Keys are pairwise
distinct because `product_ids` is deduplicated, so the dict is a plain
association list in insertion order. -/
def before_state (erp : ErpState) (cutoff : Nat) : List (Nat × ProdRecord) :=
  let sm := stuck_moves erp cutoff
  ((product_ids sm).take 20).map fun pid =>
    (pid, snapshotFor erp sm (browseProduct erp pid))

/-- `pickings = stuck_moves.mapped('picking_id')`: many2one mapping drops
moves with no picking and deduplicates keeping first occurrence. -/
def pickings (sm : List Move) : List Nat :=
  dedupFirst (sm.filterMap Move.picking_id)

/-- The batch loop `for i in range(0, total, batch_size)` with
`batch = pickings[i:i+batch_size]` and `batch_size = 100`: the contiguous
chunks of size 100 (the last one possibly shorter). -/
def chunkList : List Nat → List (List Nat)
  | [] => []
  | x :: xs => ((x :: xs).take 100) :: chunkList ((x :: xs).drop 100)
termination_by l => l.length
decreasing_by simp [List.length_drop]; omega

/-- A mutating action issued by the script: one `batch.do_unreserve()` call,
or the single `env.cr.commit()`. -/
inductive Event
  | unreserve (batch : List Nat)
  | commit
  deriving DecidableEq, Repr

/-- The quantities recomputed by the AFTER loop for one recorded product. -/
structure AfterRecord where
  on_hand : Int
  reserved : Int
  available : Int
  deriving DecidableEq, Repr

/-- The AFTER-loop aggregation: same quant query and sums as the BEFORE
snapshot (no stuck-move count). -/
def afterSnapshot (erp : ErpState) (pid : Nat) : AfterRecord :=
  let quants := prodQuants erp pid
  { on_hand := quantsOnHand quants
    reserved := quantsReserved quants
    available := quantsOnHand quants - quantsReserved quants }

/-- The execute flag exactly as shipped in the source:
`DO_UNRESERVE = True  # <-- Change to True after reviewing`. -/
def DO_UNRESERVE : Bool := true

/-- Signed rendering of the delta column (`{delta:>+12.0f}`): non-negative
values print with an explicit `+` sign. -/
def signedDelta (d : Int) : String :=
  if 0 ≤ d then "+" ++ toString d else toString d

/-- The observable outcome of one run of the script: the BEFORE rows, the
sequence of mutating events, the AFTER rows (`none` when the AFTER section
is not produced), and the ERP state the run leaves behind. -/
structure RunOutput where
  beforeRows : List (Nat × ProdRecord)
  events : List Event
  afterRows : Option (List (Nat × AfterRecord × Int))
  finalErp : ErpState
  deriving Repr

/-- The pickings the run derives from the selected moves. -/
def scriptPickings (erp : ErpState) (cutoff : Nat) : List Nat :=
  pickings (stuck_moves erp cutoff)

/-- The batches the run processes. -/
def scriptChunks (erp : ErpState) (cutoff : Nat) : List (List Nat) :=
  chunkList (scriptPickings erp cutoff)

/-- The ERP state after all `do_unreserve` batches, where
`applyRelease` is the (external) effect of `batch.do_unreserve()`. -/
def erpAfterRelease (erp : ErpState) (cutoff : Nat)
    (applyRelease : ErpState → List Nat → ErpState) : ErpState :=
  (scriptChunks erp cutoff).foldl applyRelease erp

/-- One run of the whole script.  With the flag set: unreserve each batch,
commit once, then produce the AFTER rows by iterating `before_state.items()`
in insertion order, recomputing the aggregates against the post-release
state and printing `delta = available - before['available']`.  With the flag
unset: no event, no AFTER section, ERP state untouched. -/
def runScript (doUnreserve : Bool) (cutoff : Nat)
    (applyRelease : ErpState → List Nat → ErpState) (erp : ErpState) : RunOutput :=
  let bs := before_state erp cutoff
  if doUnreserve then
    let chunks := scriptChunks erp cutoff
    let erpAfter := erpAfterRelease erp cutoff applyRelease
    let rows := bs.map fun pr =>
      (pr.1, afterSnapshot erpAfter pr.1,
        (afterSnapshot erpAfter pr.1).available - pr.2.available)
    { beforeRows := bs
      events := chunks.map Event.unreserve ++ [Event.commit]
      afterRows := some rows
      finalErp := erpAfter }
  else
    { beforeRows := bs
      events := []
      afterRows := none
      finalErp := erp }

/-! ### Helper lemmas about the batch partition -/

/-- The batches are contiguous and cover the picking list: joining them
gives the list back. -/
theorem chunkList_join (l : List Nat) : (chunkList l).flatten = l := by
  induction l using chunkList.induct with
  | case1 => simp [chunkList]
  | case2 x xs ih =>
    rw [chunkList]
    rw [List.flatten_cons, ih, List.take_append_drop]

/-- The number of batches is `⌈N / 100⌉`, written with natural division. -/
theorem chunkList_length (l : List Nat) :
    (chunkList l).length = (l.length + 99) / 100 := by
  induction l using chunkList.induct with
  | case1 => simp [chunkList]
  | case2 x xs ih =>
    rw [chunkList]
    simp only [List.length_cons, ih, List.length_drop]
    omega

/-- Every batch holds at most 100 pickings. -/
theorem chunkList_le (l : List Nat) : ∀ b ∈ chunkList l, b.length ≤ 100 := by
  induction l using chunkList.induct with
  | case1 => simp [chunkList]
  | case2 x xs ih =>
    rw [chunkList]
    intro b hb
    rcases List.mem_cons.mp hb with h | h
    · subst h
      simp
    · exact ih b h

/-- A list of unreserve events contains no commit. -/
theorem count_commit_map_unreserve (chunks : List (List Nat)) :
    (chunks.map Event.unreserve).count Event.commit = 0 := by
  rw [List.count_eq_zero]
  simp

/-- `chunkList` on the empty list produces no batch. -/
theorem chunkList_nil : chunkList [] = [] := by
  rw [chunkList]

/-- A nonempty list of at most 100 elements is a single batch. -/
theorem chunkList_short (x : Nat) (xs : List Nat) (h : (x :: xs).length ≤ 100) :
    chunkList (x :: xs) = [x :: xs] := by
  rw [chunkList, List.take_of_length_le h, List.drop_eq_nil_of_le h, chunkList_nil]

/-- Projecting the first components of a paired-up list gives the list back. -/
theorem map_fst_pair (l : List Nat) (g : Nat → ProdRecord) :
    (l.map fun pid => (pid, g pid)).map Prod.fst = l := by
  induction l with
  | nil => rfl
  | cons x xs ih => simp [ih]

/-- `browse` yields a record carrying the requested id. -/
theorem browseProduct_id (erp : ErpState) (i : Nat) : (browseProduct erp i).id = i := by
  unfold browseProduct
  cases hfind : erp.products.find? fun p => p.id == i with
  | none => rfl
  | some p =>
    have hp := List.find?_some hfind
    simpa using hp

/-! ### Fixture ERP states used to instantiate the theorems -/

/-- Fixture: product 1 has internal quants (10 reserved 3) and (5 reserved 5)
and two stuck moves, both on picking 7. -/
def erpW : ErpState :=
  { moves :=
      [{ id := 1, state := .assigned, date := 5, sale_line_id := some 1,
         product_id := 1, picking_id := some 7 },
       { id := 2, state := .confirmed, date := 5, sale_line_id := some 2,
         product_id := 1, picking_id := some 7 }]
    quants :=
      [{ product_id := 1, location_usage := .internal, quantity := 10, reserved_quantity := 3 },
       { product_id := 1, location_usage := .internal, quantity := 5, reserved_quantity := 5 }]
    products := [{ id := 1, default_code := some "A" }] }

/-- The BEFORE record the script computes for product 1 of `erpW`. -/
def recW : ProdRecord :=
  { sku := some "A", on_hand := 15, reserved := 8, available := 7, stuck_moves := 2 }

/-- Fixture: one stuck move on picking 7, no quants, no product master data. -/
def erpOne : ErpState :=
  { moves :=
      [{ id := 1, state := .assigned, date := 5, sale_line_id := some 1,
         product_id := 1, picking_id := some 7 }]
    quants := []
    products := [] }

/-- The empty ERP state. -/
def erpEmpty : ErpState := { moves := [], quants := [], products := [] }

/-- The pickings of `erpW` chunk into the single batch `[7]`. -/
theorem erpW_chunks : scriptChunks erpW 10 = [[7]] := by
  show chunkList (scriptPickings erpW 10) = [[7]]
  rw [show scriptPickings erpW 10 = [7] from rfl]
  exact chunkList_short 7 [] (by decide)

/-- The pickings of `erpOne` chunk into the single batch `[7]`. -/
theorem erpOne_chunks : scriptChunks erpOne 10 = [[7]] := by
  show chunkList (scriptPickings erpOne 10) = [[7]]
  rw [show scriptPickings erpOne 10 = [7] from rfl]
  exact chunkList_short 7 [] (by decide)

/-! ### The claims -/

/-- C1: the selector returns exactly the moves of the ERP state whose status
is in the allowed set, whose date is strictly before the cutoff, and whose
sale-order-line link is set — for every ERP state, no move outside these
bounds and every move inside them. -/
theorem selector_exact (erp : ErpState) (cutoff : Nat) (m : Move) :
    m ∈ stuck_moves erp cutoff ↔
      m ∈ erp.moves ∧ m.state ∈ allowedStates ∧ m.date < cutoff ∧
        m.sale_line_id ≠ none := by
  simp [stuck_moves, List.mem_filter, Option.isSome_iff_ne_none, and_assoc]

/-- C2: with the execute flag set and N pickings derived from the selected
moves, the run partitions them into contiguous batches, invokes the release
operation exactly `⌈N/100⌉` times with each batch of at most 100 pickings,
and issues exactly one commit, after all the batches. -/
theorem batch_release_exact (erp : ErpState) (cutoff : Nat)
    (f : ErpState → List Nat → ErpState) :
    (runScript true cutoff f erp).events =
      (scriptChunks erp cutoff).map Event.unreserve ++ [Event.commit] ∧
    (scriptChunks erp cutoff).flatten = scriptPickings erp cutoff ∧
    (scriptChunks erp cutoff).length = ((scriptPickings erp cutoff).length + 99) / 100 ∧
    (∀ b ∈ scriptChunks erp cutoff, b.length ≤ 100) ∧
    (runScript true cutoff f erp).events.count Event.commit = 1 := by
  refine ⟨rfl, chunkList_join _, chunkList_length _, chunkList_le _, ?_⟩
  have h : (runScript true cutoff f erp).events =
      (scriptChunks erp cutoff).map Event.unreserve ++ [Event.commit] := rfl
  rw [h, List.count_append, count_commit_map_unreserve]
  simp

/-- C2 witness: on the fixture state the single batch `[7]` has at most 100
pickings and the run commits exactly once. -/
theorem batch_release_exact_witness :
    ([7] : List Nat).length ≤ 100 ∧
    (runScript true 10 (fun s _ => s) erpW).events.count Event.commit = 1 := by
  have h := batch_release_exact erpW 10 (fun s _ => s)
  refine ⟨h.2.2.2.1 [7] ?_, h.2.2.2.2⟩
  rw [erpW_chunks]
  simp

/-- C3: the script as shipped sets the execute flag to `True` inline,
contradicting its own review-first comment and printed instructions: a first
run with the default configuration already invokes the release action and
issues the commit. -/
theorem default_flag_executes :
    DO_UNRESERVE = true ∧
    (runScript DO_UNRESERVE 10 (fun s _ => s) erpOne).events =
      [Event.unreserve [7], Event.commit] := by
  refine ⟨rfl, ?_⟩
  show (runScript true 10 (fun s _ => s) erpOne).events = _
  have h : (runScript true 10 (fun s _ => s) erpOne).events =
      (scriptChunks erpOne 10).map Event.unreserve ++ [Event.commit] := rfl
  rw [h, erpOne_chunks]
  rfl

/-- C4: every record of the BEFORE snapshot aggregates exactly as specified:
on-hand is the sum of the quantity field over the product's internal-location
quants, reserved the sum of their reserved-quantity field, available their
difference, and the stuck-move count the number of selected moves referencing
the product. -/
theorem snapshot_aggregation (erp : ErpState) (cutoff : Nat) (pid : Nat)
    (r : ProdRecord) (h : (pid, r) ∈ before_state erp cutoff) :
    r.on_hand = ((prodQuants erp pid).map Quant.quantity).sum ∧
    r.reserved = ((prodQuants erp pid).map Quant.reserved_quantity).sum ∧
    r.available = r.on_hand - r.reserved ∧
    r.stuck_moves =
      ((stuck_moves erp cutoff).filter fun m => m.product_id == pid).length := by
  simp only [before_state, List.mem_map] at h
  obtain ⟨a, _, heq⟩ := h
  obtain ⟨rfl, rfl⟩ := Prod.mk.injEq .. ▸ heq
  refine ⟨?_, ?_, rfl, ?_⟩
  all_goals simp [snapshotFor, quantsOnHand, quantsReserved, browseProduct_id]

/-- C4 witness: on the fixture state, product 1 with internal quants
(10 reserved 3) and (5 reserved 5) is recorded as on-hand 15, reserved 8,
available 7, with 2 stuck moves. -/
theorem snapshot_aggregation_witness :
    (1, recW) ∈ before_state erpW 10 ∧
    (recW.on_hand = ((prodQuants erpW 1).map Quant.quantity).sum ∧
     recW.reserved = ((prodQuants erpW 1).map Quant.reserved_quantity).sum ∧
     recW.available = recW.on_hand - recW.reserved ∧
     recW.stuck_moves =
       ((stuck_moves erpW 10).filter fun m => m.product_id == 1).length) :=
  ⟨by decide, snapshot_aggregation erpW 10 1 recW (by decide)⟩

/-- C5: the AFTER section prints, for each recorded product, quantities
recomputed by the same aggregation as the BEFORE snapshot together with a
delta equal to the new available minus the recorded available; a delta of
`12 - 7` renders with an explicit sign as `+5`. -/
theorem delta_report_exact (erp : ErpState) (cutoff : Nat)
    (f : ErpState → List Nat → ErpState) :
    (runScript true cutoff f erp).afterRows =
      some ((before_state erp cutoff).map fun pr =>
        (pr.1, afterSnapshot (erpAfterRelease erp cutoff f) pr.1,
          (afterSnapshot (erpAfterRelease erp cutoff f) pr.1).available -
            pr.2.available)) ∧
    (∀ e pid sm,
      (afterSnapshot e pid).on_hand = (snapshotFor e sm (browseProduct e pid)).on_hand ∧
      (afterSnapshot e pid).reserved = (snapshotFor e sm (browseProduct e pid)).reserved ∧
      (afterSnapshot e pid).available = (snapshotFor e sm (browseProduct e pid)).available) ∧
    signedDelta (12 - 7) = "+5" := by
  refine ⟨rfl, fun e pid sm => ?_, rfl⟩
  refine ⟨?_, ?_, ?_⟩ <;>
    simp [afterSnapshot, snapshotFor, browseProduct_id]

/-- C6: with the execute flag unset, the run issues no release action and no
commit, leaves the ERP state unchanged, and produces no AFTER section. -/
theorem dry_run_no_effect (erp : ErpState) (cutoff : Nat)
    (f : ErpState → List Nat → ErpState) :
    (runScript false cutoff f erp).events = [] ∧
    (runScript false cutoff f erp).finalErp = erp ∧
    (runScript false cutoff f erp).afterRows = none :=
  ⟨rfl, rfl, rfl⟩

/-- C7: the BEFORE snapshot reports at most 20 products, namely the first 20
affected products in order of first appearance among the selected moves. -/
theorem report_capped (erp : ErpState) (cutoff : Nat) :
    (before_state erp cutoff).length ≤ 20 ∧
    (before_state erp cutoff).map Prod.fst =
      (dedupFirst ((stuck_moves erp cutoff).map Move.product_id)).take 20 := by
  constructor
  · simp only [before_state, List.length_map]
    exact List.length_take_le 20 _
  · simp only [before_state, product_ids]
    exact map_fst_pair _ _

/-- C8: a product with no matching quants is aggregated totally, with no
error path: the empty sums give on-hand 0 and reserved 0, hence available 0,
in both the BEFORE record and the AFTER record. -/
theorem empty_quants_total (erp : ErpState) (sm : List Move) (prod : Product)
    (pid : Nat) (h1 : prodQuants erp prod.id = []) (h2 : prodQuants erp pid = []) :
    (snapshotFor erp sm prod).on_hand = 0 ∧
    (snapshotFor erp sm prod).reserved = 0 ∧
    (snapshotFor erp sm prod).available = 0 ∧
    afterSnapshot erp pid = AfterRecord.mk 0 0 0 := by
  refine ⟨?_, ?_, ?_, ?_⟩ <;>
    simp [snapshotFor, afterSnapshot, h1, h2, quantsOnHand, quantsReserved]

/-- C8 witness: on the empty ERP state, product 1 has no quants and both
records aggregate to zero. -/
theorem empty_quants_total_witness :
    (prodQuants erpEmpty (Product.mk 1 none).id = [] ∧ prodQuants erpEmpty 1 = []) ∧
    ((snapshotFor erpEmpty [] (Product.mk 1 none)).on_hand = 0 ∧
     (snapshotFor erpEmpty [] (Product.mk 1 none)).reserved = 0 ∧
     (snapshotFor erpEmpty [] (Product.mk 1 none)).available = 0 ∧
     afterSnapshot erpEmpty 1 = AfterRecord.mk 0 0 0) :=
  ⟨⟨by decide, by decide⟩,
    empty_quants_total erpEmpty [] (Product.mk 1 none) 1 (by decide) (by decide)⟩

/-- C5 witness: a run on the empty fixture instantiates the delta law, and a
delta of `12 - 7` prints as `+5`. -/
theorem delta_report_exact_witness : signedDelta (12 - 7) = "+5" :=
  (delta_report_exact erpEmpty 0 (fun s _ => s)).2.2

/-- C9: with the execute flag set, the AFTER section holds exactly one row
for each product recorded in the BEFORE snapshot, in the same order and for
no other product; a recorded product with no internal-location quants left at
report time is reported with all quantities zero. -/
theorem after_rows_match (erp : ErpState) (cutoff : Nat)
    (f : ErpState → List Nat → ErpState) :
    (runScript true cutoff f erp).afterRows.map (fun rows => rows.map Prod.fst) =
      some ((before_state erp cutoff).map Prod.fst) ∧
    (∀ rows, (runScript true cutoff f erp).afterRows = some rows →
      ∀ pr ∈ rows, prodQuants (runScript true cutoff f erp).finalErp pr.1 = [] →
        pr.2.1 = AfterRecord.mk 0 0 0) := by
  constructor
  · show some (((before_state erp cutoff).map _).map Prod.fst) = _
    simp [List.map_map, Function.comp]
  · intro rows hrows pr hpr hq
    have hr : ((before_state erp cutoff).map fun pr =>
        (pr.1, afterSnapshot (erpAfterRelease erp cutoff f) pr.1,
          (afterSnapshot (erpAfterRelease erp cutoff f) pr.1).available -
            pr.2.available)) = rows := Option.some.inj hrows
    rw [← hr] at hpr
    obtain ⟨a, _, rfl⟩ := List.mem_map.mp hpr
    have hq' : prodQuants (erpAfterRelease erp cutoff f) a.1 = [] := hq
    simp [afterSnapshot, hq', quantsOnHand, quantsReserved]

/-- C9 witness: on the fixture with one stuck move and no quants, the AFTER
section holds the single row of the recorded product, with all zeros. -/
theorem after_rows_match_witness :
    ((runScript true 10 (fun s _ => s) erpOne).afterRows =
      some [(1, AfterRecord.mk 0 0 0, 0)]) ∧
    (1, AfterRecord.mk 0 0 0, (0 : Int)) ∈ [(1, AfterRecord.mk 0 0 0, (0 : Int))] ∧
    prodQuants (runScript true 10 (fun s _ => s) erpOne).finalErp 1 = [] ∧
    ((1, AfterRecord.mk 0 0 0, (0 : Int)) : Nat × AfterRecord × Int).2.1 =
      AfterRecord.mk 0 0 0 := by
  have hfold : erpAfterRelease erpOne 10 (fun s _ => s) = erpOne := by
    unfold erpAfterRelease
    rw [erpOne_chunks]
    rfl
  have h1 : (runScript true 10 (fun s _ => s) erpOne).afterRows =
      some [(1, AfterRecord.mk 0 0 0, 0)] := by
    show some (((before_state erpOne 10)).map fun pr =>
        (pr.1, afterSnapshot (erpAfterRelease erpOne 10 fun s _ => s) pr.1,
          (afterSnapshot (erpAfterRelease erpOne 10 fun s _ => s) pr.1).available -
            pr.2.available)) = _
    rw [hfold]
    rfl
  have h3 : prodQuants (runScript true 10 (fun s _ => s) erpOne).finalErp 1 = [] := by
    show prodQuants (erpAfterRelease erpOne 10 fun s _ => s) 1 = []
    rw [hfold]
    rfl
  exact ⟨h1, by decide, h3,
    (after_rows_match erpOne 10 (fun s _ => s)).2 _ h1 _ (by decide) h3⟩

/-- C10: with the execute flag set and no matching move, the run derives no
picking, invokes the release operation zero times, still issues exactly one
commit, and still produces both report sections as empty tables. -/
theorem empty_selection_run (erp : ErpState) (cutoff : Nat)
    (f : ErpState → List Nat → ErpState) (h : stuck_moves erp cutoff = []) :
    (runScript true cutoff f erp).events = [Event.commit] ∧
    (runScript true cutoff f erp).beforeRows = [] ∧
    (runScript true cutoff f erp).afterRows = some [] := by
  have hp : scriptPickings erp cutoff = [] := by
    simp [scriptPickings, pickings, h, dedupFirst, dedupFirstAux]
  have hch : scriptChunks erp cutoff = [] := by
    show chunkList (scriptPickings erp cutoff) = []
    rw [hp, chunkList_nil]
  have hbs : before_state erp cutoff = [] := by
    simp [before_state, h, product_ids, dedupFirst, dedupFirstAux]
  refine ⟨?_, hbs, ?_⟩
  · show (scriptChunks erp cutoff).map Event.unreserve ++ [Event.commit] = _
    rw [hch]
    rfl
  · show some ((before_state erp cutoff).map _) = some []
    rw [hbs]
    rfl

/-- C10 witness: on the empty ERP state the selection is empty and the run
still commits once with both report sections empty. -/
theorem empty_selection_run_witness :
    stuck_moves erpEmpty 0 = [] ∧
    ((runScript true 0 (fun s _ => s) erpEmpty).events = [Event.commit] ∧
     (runScript true 0 (fun s _ => s) erpEmpty).beforeRows = [] ∧
     (runScript true 0 (fun s _ => s) erpEmpty).afterRows = some []) :=
  ⟨by decide, empty_selection_run erpEmpty 0 (fun s _ => s) (by decide)⟩

end OdooBulkUnreserve
